import Mathlib

/-!
# Verification of the home-automation controller and entity lifecycle protocol

Shallow embedding of the Rust sources of `labor-verteilte-systeme`:

* `home_automation_common/src/lib.rs` — topic helpers, `EntityState::entity_type`,
  `HEARTBEAT_FREQUENCY`;
* `home_automation_controller/src/state.rs` — registry rows (`Entity`, `AppState`,
  `SubscriptionCommand`);
* `home_automation_controller/src/entity_discovery.rs` — `EntityDiscoveryTask::handle_command`;
* `home_automation_controller/src/timeout.rs` — `TimeoutTask`;
* `home_automation_controller/src/subscriber.rs` — `SubscriberTask::inner_handle_client`;
* `home_automation_controller/src/client_api.rs` — `ClientApiTask::handle_entity_state_command`;
* `home_automation_entity/src/lib.rs` and `src/bin/{sensor,actuator}.rs` — the entity runtime.

Time is modelled as a monotonic clock in milliseconds (`Nat`): `std::time::Instant`
becomes a `Nat` sample of that clock and `Instant::duration_since` becomes truncated
`Nat` subtraction, matching its saturating behaviour.  The concurrent `DashMap` registry
is modelled as an association list with unique keys; each controller request handler is a
pure function from registry (plus request data) to registry, reply, and the list of
subscription commands it pushed onto the `mpsc` channel towards the Subscriber task
(channel sends are assumed to succeed, i.e. the receiving half is alive).
-/

deriving instance DecidableEq for Except

namespace HomeAutomation

/-- `entity_discovery_command::EntityType` from the generated protobuf code. -/
inductive EntityType
  | sensor
  | actuator
deriving DecidableEq, Repr

/-- protobuf `TemperatureSensorMeasurement`; the `f32` payload is modelled as `ℚ`. -/
structure TemperatureSensorMeasurement where
  temperature : ℚ
deriving DecidableEq, Repr

/-- protobuf `HumiditySensorMeasurement`; the `f32` payload is modelled as `ℚ`. -/
structure HumiditySensorMeasurement where
  humidity : ℚ
deriving DecidableEq, Repr

/-- protobuf `sensor_measurement::Value`. -/
inductive SensorValue
  | Temperature (v : TemperatureSensorMeasurement)
  | Humidity (v : HumiditySensorMeasurement)
deriving DecidableEq, Repr

/-- protobuf `SensorMeasurement`. -/
structure SensorMeasurement where
  unit : String
  value : Option SensorValue
deriving DecidableEq, Repr

/-- protobuf `LightActuatorState`; the `f32` payload is modelled as `ℚ`. -/
structure LightActuatorState where
  brightness : ℚ
deriving DecidableEq, Repr

/-- protobuf `AirConditioningActuatorState`; the Rust field is called `on`,
which is a Lean keyword, hence the guillemets. -/
structure AirConditioningActuatorState where
  «on» : Bool
deriving DecidableEq, Repr

/-- protobuf `actuator_state::State`. -/
inductive ActuatorStateValue
  | Light (s : LightActuatorState)
  | AirConditioning (s : AirConditioningActuatorState)
deriving DecidableEq, Repr

/-- protobuf `ActuatorState`. -/
structure ActuatorState where
  state : Option ActuatorStateValue
deriving DecidableEq, Repr

/-- `actuator_state_topic` from `home_automation_common/src/lib.rs`:
`format!("/actuator_state/{name}")`. -/
def actuator_state_topic (name : String) : String :=
  "/actuator_state/" ++ name

/-- `sensor_measurement_topic` from `home_automation_common/src/lib.rs`:
`format!("/measurement/{name}")`. -/
def sensor_measurement_topic (name : String) : String :=
  "/measurement/" ++ name

/-- `entity_topic` from `home_automation_common/src/lib.rs`. -/
def entity_topic (name : String) (entity_type : EntityType) : String :=
  match entity_type with
  | .actuator => actuator_state_topic name
  | .sensor => sensor_measurement_topic name

/-- `HEARTBEAT_FREQUENCY = Duration::from_secs(10)`, in milliseconds. -/
def HEARTBEAT_FREQUENCY : Nat := 10000

/-- Rust's `str::strip_prefix(pre)`, on the character lists underlying the strings. -/
def stripTopicHead (pre topic : String) : Option String :=
  if pre.data.isPrefixOf topic.data then some ⟨topic.data.drop pre.data.length⟩ else none

/-- `sensor_name` from `home_automation_common/src/lib.rs`: strips `/measurement/`
or fails. -/
def sensor_name (topic : String) : Except String String :=
  match stripTopicHead "/measurement/" topic with
  | some n => .ok n
  | none => .error ("Failed to parse topic " ++ topic ++ " as sensor topic")

/-- `actuator_name` from `home_automation_common/src/lib.rs`: strips `/actuator_state/`
or fails. -/
def actuator_name (topic : String) : Except String String :=
  match stripTopicHead "/actuator_state/" topic with
  | some n => .ok n
  | none => .error ("Failed to parse topic " ++ topic ++ " as actuator topic")

/-- `EntityState` from `home_automation_controller/src/state.rs` (text-identical to the
copy in `home_automation_common/src/lib.rs`). -/
inductive EntityState
  | Sensor (m : SensorMeasurement)
  | Actuator (s : ActuatorState)
  | New (t : EntityType)
deriving DecidableEq, Repr

/-- `EntityState::entity_type` from `home_automation_common/src/lib.rs`. -/
def EntityState.entity_type : EntityState → EntityType
  | .Sensor _ => .sensor
  | .Actuator _ => .actuator
  | .New t => t

/-- A `zmq_sockets::Requester<Linked>`, reduced to the address it was connected to. -/
structure Requester where
  addr : String
deriving DecidableEq, Repr

/-- `Entity` (one registry row) from `home_automation_controller/src/state.rs`.
`last_heartbeat_pulse : Instant` is a millisecond clock sample; the `Mutex` around
the back-channel connection is elided (the embedding is sequential). -/
structure Entity where
  state : EntityState
  last_heartbeat_pulse : Nat
  connection : Requester
deriving DecidableEq, Repr

/-- `Entity::new` from `state.rs`: `state = New(entity_type)`,
`last_heartbeat_pulse = Instant::now()` (the clock sample is passed explicitly). -/
def Entity.new (connection : Requester) (entity_type : EntityType) (now : Nat) : Entity :=
  { state := .New entity_type, last_heartbeat_pulse := now, connection := connection }

/-- The `DashMap<String, Entity>` registry, as an association list with unique keys. -/
abbrev Registry := List (String × Entity)

/-- Key lookup (`DashMap::get` / `entry` occupancy test). -/
def Registry.lookup : Registry → String → Option Entity
  | [], _ => none
  | (k, e) :: rest, n => if k = n then some e else Registry.lookup rest n

/-- Insertion of a fresh key (`Entry::Vacant::insert`); the row is appended. -/
def Registry.insertNew (r : Registry) (n : String) (e : Entity) : Registry :=
  r ++ [(n, e)]

/-- Key removal (`DashMap::remove`); removes the (unique) row with this key. -/
def Registry.remove : Registry → String → Registry
  | [], _ => []
  | (k, e) :: rest, n => if k = n then rest else (k, e) :: Registry.remove rest n

/-- In-place update of the row under a key (`DashMap::get_mut`). -/
def Registry.update : Registry → String → (Entity → Entity) → Registry
  | [], _, _ => []
  | (k, e) :: rest, n, f =>
    if k = n then (k, f e) :: rest else (k, e) :: Registry.update rest n f

/-- `AppState` from `state.rs` (the zmq context is elided). -/
structure AppState where
  entities : Registry
deriving DecidableEq, Repr

/-- `AppState::unregister` from `state.rs`: error when the key is absent, otherwise
remove the row. -/
def AppState.unregister (s : AppState) (entity_name : String) :
    Except String AppState :=
  match s.entities.lookup entity_name with
  | none => .error ("Failed to remove unknown entity " ++ entity_name)
  | some _ => .ok ⟨s.entities.remove entity_name⟩

/-- `Action` from `state.rs`. -/
inductive SubscriptionAction
  | Subscribe
  | Unsubscribe
deriving DecidableEq, Repr

/-- `SubscriptionCommand` from `state.rs`. -/
structure SubscriptionCommand where
  topic : String
  action : SubscriptionAction
deriving DecidableEq, Repr

/-- `SubscriptionCommand::subscribe`. -/
def SubscriptionCommand.subscribe (topic : String) : SubscriptionCommand :=
  { topic := topic, action := .Subscribe }

/-- `SubscriptionCommand::unsubscribe`. -/
def SubscriptionCommand.unsubscribe (topic : String) : SubscriptionCommand :=
  { topic := topic, action := .Unsubscribe }

/-- protobuf `entity_discovery_command::Command`; `Registration { port }` carries the
port of the entity's replier socket. -/
inductive DiscoveryCommandKind
  | Register (port : Nat)
  | Heartbeat
  | Unregister
deriving DecidableEq, Repr

/-- protobuf `EntityDiscoveryCommand`; `command` is an optional `oneof`. -/
structure EntityDiscoveryCommand where
  entity_name : String
  entity_type : EntityType
  command : Option DiscoveryCommandKind
deriving DecidableEq, Repr

/-- protobuf `response_code::Code`. -/
inductive Code
  | Ok
  | Error
deriving DecidableEq, Repr

/-- protobuf `ResponseCode`. -/
structure ResponseCode where
  code : Code
deriving DecidableEq, Repr

/-- `impl From<Result<T, E>> for ResponseCode` in `home_automation_common/src/lib.rs`. -/
def responseOf {ε α : Type} : Except ε α → ResponseCode
  | .ok _ => ⟨.Ok⟩
  | .error _ => ⟨.Error⟩

/-- `EntityDiscoveryTask::open_back_channel`: a Requester connected to
`format!("tcp://{ip}:{port}")`.  Socket creation and connection are assumed to
succeed (zmq `connect` is asynchronous and does not fail for live addresses). -/
def open_back_channel (ip : String) (port : Nat) : Requester :=
  ⟨"tcp://" ++ ip ++ ":" ++ toString port⟩

/-- `EntityDiscoveryTask::handle_command` from `entity_discovery.rs`.  Inputs: the
registry, the request, the peer ip from the received frame, and the current clock
sample (`Instant::now()`).  Outputs: the handler result (the reply sent back is
`responseOf` of it), the new registry, and the commands pushed to the Subscriber
channel, in order.

Note on the `Register` arm: the source calls `Entity::new(requester)` while
`Entity::new` in `state.rs` takes `(connection, entity_type)`; the embedding passes
`request.entity_type()` for the missing argument, which is what every consumer of
`EntityState::New` (client_api, timeout) relies on. -/
def handle_command (s : AppState) (request : EntityDiscoveryCommand) (ip : String)
    (now : Nat) : Except String Unit × AppState × List SubscriptionCommand :=
  match request.command with
  | some (.Register registration_port) =>
    match s.entities.lookup request.entity_name with
    | some _ => (.error ("Entity " ++ request.entity_name ++ " already registered"), s, [])
    | none =>
      let requester := open_back_channel ip registration_port
      let cmds := [SubscriptionCommand.subscribe
        (entity_topic request.entity_name request.entity_type)]
      (.ok (), ⟨s.entities.insertNew request.entity_name
        (Entity.new requester request.entity_type now)⟩, cmds)
  | some .Unregister =>
    let cmds := [SubscriptionCommand.unsubscribe
      (entity_topic request.entity_name request.entity_type)]
    match s.unregister request.entity_name with
    | .ok s' => (.ok (), s', cmds)
    | .error e => (.error e, s, cmds)
  | some .Heartbeat =>
    match s.entities.lookup request.entity_name with
    | some _ => (.ok (), ⟨s.entities.update request.entity_name
        (fun e => { e with last_heartbeat_pulse := now })⟩, [])
    | none => (.error ("Heartbeat from unknown entity " ++ request.entity_name), s, [])
  | none => (.error "EntityDiscoveryCommand is missing the command", s, [])

/-- The predicate of `DashMap::retain` inside `TimeoutTask::unregister_dead_entities`:
a row is kept when `now.duration_since(entity.last_heartbeat_pulse) <
HEARTBEAT_FREQUENCY * 2` (`duration_since` saturates at zero, like `Nat` subtraction). -/
def rowAlive (now : Nat) (e : Entity) : Bool :=
  now - e.last_heartbeat_pulse < HEARTBEAT_FREQUENCY * 2

/-- `TimeoutTask::unregister_dead_entities` from `timeout.rs`: walk the registry in
order; keep live rows; for each dead row push `Unsubscribe(entity_topic(name,
entity.state.entity_type()))` and drop the row.  Channel sends succeed, so the
`result.is_err()` short-circuit of the source never fires. -/
def unregister_dead_entities (now : Nat) : Registry → Registry × List SubscriptionCommand
  | [] => ([], [])
  | (n, e) :: rest =>
    let (r', cmds) := unregister_dead_entities now rest
    if rowAlive now e then ((n, e) :: r', cmds)
    else (r', SubscriptionCommand.unsubscribe (entity_topic n e.state.entity_type) :: cmds)

/-- The timeout poll interval: `std::thread::sleep(Duration::from_millis(100))` in
`TimeoutTask::run`, in milliseconds. -/
def timeoutPollInterval : Nat := 100

/-- The sweep trigger in `TimeoutTask::run`: sweep when
`last_run.elapsed() > HEARTBEAT_FREQUENCY`. -/
def sweepDue (lastRun now : Nat) : Bool :=
  HEARTBEAT_FREQUENCY < now - lastRun

/-- protobuf `publish_data::Value`. -/
inductive PublishValue
  | Measurement (m : SensorMeasurement)
  | ActuatorState (s : ActuatorState)
deriving DecidableEq, Repr

/-- protobuf `PublishData`. -/
structure PublishData where
  value : Option PublishValue
deriving DecidableEq, Repr

/-- The `update_state` closure inside `SubscriberTask::inner_handle_client`: look the
name up; unknown entities are an error (the sample is dropped); otherwise overwrite
the row's `state`. -/
def update_state (s : AppState) (name : String) (state : EntityState) :
    Except String AppState :=
  match s.entities.lookup name with
  | none => .error ("Payload received for unknown entity " ++ name)
  | some _ => .ok ⟨s.entities.update name (fun e => { e with state := state })⟩

/-- `SubscriberTask::inner_handle_client` from `subscriber.rs`, applied to one
received `(topic, payload)` frame.  On error the registry is unchanged. -/
def inner_handle_client (s : AppState) (topic : String) (payload : PublishData) :
    Except String AppState :=
  match payload.value with
  | none => .error ("Missing payload for topic " ++ topic)
  | some (.Measurement m) =>
    match sensor_name topic with
    | .error e => .error e
    | .ok name => update_state s name (.Sensor m)
  | some (.ActuatorState a) =>
    match actuator_name topic with
    | .error e => .error e
    | .ok name => update_state s name (.Actuator a)

/-- protobuf `SensorConfiguration`; the `f32` frequency is modelled by `F32` below. -/
inductive F32
  | finite (val : ℚ)
  | posInf
  | negInf
  | nan
deriving DecidableEq, Repr

structure SensorConfiguration where
  update_frequency_hz : F32
deriving DecidableEq, Repr

/-- protobuf `named_entity_state::State`. -/
inductive NamedState
  | ActuatorState (s : ActuatorState)
  | SensorConfiguration (c : SensorConfiguration)
deriving DecidableEq, Repr

/-- protobuf `NamedEntityState`. -/
structure NamedEntityState where
  entity_name : String
  state : Option NamedState
deriving DecidableEq, Repr

/-- `ClientApiTask::handle_entity_state_command` from `client_api.rs`.  The
back-channel exchange (`connection.send(entity_state)` + `connection.receive()`)
is I/O against the entity's replier and is passed in as `backChannel`: `none` when
either step fails, `some rc` for a received `ResponseCode`.  The function returns
the handler result (the client reply is `responseOf` of it) and the registry, which
no branch of the source mutates. -/
def handle_entity_state_command (s : AppState) (entity_state : NamedEntityState)
    (backChannel : Option ResponseCode) : Except String Unit × AppState :=
  match s.entities.lookup entity_state.entity_name with
  | none => (.error ("Unknown entity " ++ entity_state.entity_name ++
      " in NamedEntityState command"), s)
  | some _ =>
    match backChannel with
    | none => (.error "back-channel send/receive failed", s)
    | some response_code =>
      match response_code.code with
      | .Ok => (.ok (), s)
      | .Error => (.error ("Failed to update entity " ++ entity_state.entity_name), s)

/-! ## Entity runtime (`home_automation_entity`) -/

/-- `SensorKind` from `src/bin/sensor.rs`. -/
inductive SensorKind
  | Humidity
  | Temperature
deriving DecidableEq, Repr

/-- `ActuatorKind` from `src/bin/actuator.rs`. -/
inductive ActuatorKind
  | AirConditioning
  | Light
deriving DecidableEq, Repr

/-- The `Sensor` entity struct from `src/bin/sensor.rs`. -/
structure SensorEntity where
  topic : String
  name : String
  data_kind : SensorKind
deriving DecidableEq, Repr

/-- `<Sensor as Entity>::new(base_name)` (the kind comes from argv):
`topic = sensor_measurement_topic(&base_name)`, `name = format!("sen_{base_name}")`. -/
def SensorEntity.new (base_name : String) (kind : SensorKind) : SensorEntity :=
  { topic := sensor_measurement_topic base_name
    name := "sen_" ++ base_name
    data_kind := kind }

/-- The `Actuator` entity struct from `src/bin/actuator.rs` (its `RwLock<State>`
data is carried as a plain value). -/
structure ActuatorEntity where
  topic : String
  name : String
  data : ActuatorStateValue
deriving DecidableEq, Repr

/-- `impl From<ActuatorKind> for State` in `src/bin/actuator.rs`
(`..ActuatorState::default()` payloads: brightness 0, off). -/
def ActuatorKind.initialState : ActuatorKind → ActuatorStateValue
  | .AirConditioning => .AirConditioning ⟨false⟩
  | .Light => .Light ⟨0⟩

/-- `impl From<&State> for ActuatorKind` in `src/bin/actuator.rs`. -/
def ActuatorStateValue.kind : ActuatorStateValue → ActuatorKind
  | .Light _ => .Light
  | .AirConditioning _ => .AirConditioning

/-- `<Actuator as Entity>::new(base_name)`:
`topic = actuator_state_topic(&base_name)`, `name = format!("act_{base_name}")`. -/
def ActuatorEntity.new (base_name : String) (kind : ActuatorKind) : ActuatorEntity :=
  { topic := actuator_state_topic base_name
    name := "act_" ++ base_name
    data := kind.initialState }

/-- `App::discovery_command` from `home_automation_entity/src/lib.rs`, for a sensor:
`entity_name` is the entity's `name()`, `entity_type` is `E::ENTITY_TYPE`. -/
def SensorEntity.discovery_command (e : SensorEntity) (command : DiscoveryCommandKind) :
    EntityDiscoveryCommand :=
  { entity_name := e.name, entity_type := .sensor, command := some command }

/-- `App::discovery_command`, for an actuator. -/
def ActuatorEntity.discovery_command (e : ActuatorEntity) (command : DiscoveryCommandKind) :
    EntityDiscoveryCommand :=
  { entity_name := e.name, entity_type := .actuator, command := some command }

/-- `1. / hz` in `f32` arithmetic: `1.0 / 0.0 = +inf`, `1.0 / ±inf = ±0`,
`1.0 / nan = nan`; for nonzero finite `hz` the model keeps the exact rational
(the claims only depend on sign and finiteness, which f32 rounding of `1/hz`
preserves). -/
def f32OneOver : F32 → F32
  | .finite q => if q = 0 then .posInf else .finite (Rat.divInt (q.den : Int) q.num)
  | .posInf => .finite 0
  | .negInf => .finite 0
  | .nan => .nan

/-- The seconds value above which `Duration::from_secs_f32` overflows
(`u64::MAX + 1` whole seconds). -/
def MAX_DURATION_SECS : ℚ := 2 ^ 64

/-- `Result` of running a possibly-panicking computation. -/
inductive PanicOr (α : Type)
  | panicked (msg : String)
  | value (a : α)
deriving DecidableEq, Repr

/-- `Duration::from_secs_f32`: panics when the argument is negative, not finite,
or too large for a `Duration`; the resulting duration is kept in seconds (`ℚ`). -/
def durationFromSecsF32 : F32 → PanicOr ℚ
  | .finite q =>
    if 0 ≤ q ∧ q < MAX_DURATION_SECS then .value q
    else .panicked "can not convert float seconds to Duration"
  | _ => .panicked "can not convert float seconds to Duration"

/-- `<Sensor as Entity>::handle_incoming_data` from `src/bin/sensor.rs`: reject data
addressed to another name; a `SensorConfiguration` yields a new refresh rate
`Duration::from_secs_f32(1. / config.update_frequency_hz)` (which can panic);
anything else is an error.  The outer `PanicOr` separates a Rust panic from the
returned `Result`. -/
def SensorEntity.handle_incoming_data (e : SensorEntity) (data : NamedEntityState) :
    PanicOr (Except String (Option ℚ)) :=
  if data.entity_name = e.name then
    match data.state with
    | some (.SensorConfiguration config) =>
      match durationFromSecsF32 (f32OneOver config.update_frequency_hz) with
      | .panicked msg => .panicked msg
      | .value d => .value (.ok (some d))
    | none => .value (.error "Missing payload data")
    | some (.ActuatorState _) => .value (.error "Invalid payload for sensor")
  else .value (.error "Message arrived at wrong sensor")

/-- `<Actuator as Entity>::handle_incoming_data` from `src/bin/actuator.rs`; also
returns the actuator's (possibly updated) own state. -/
def ActuatorEntity.handle_incoming_data (e : ActuatorEntity) (data : NamedEntityState) :
    PanicOr (Except String (Option ℚ)) × ActuatorEntity :=
  if data.entity_name = e.name then
    match data.state with
    | none => (.value (.error "Missing payload data"), e)
    | some (.ActuatorState ⟨none⟩) => (.value (.error "Missing payload data"), e)
    | some (.ActuatorState ⟨some new_state⟩) =>
      if new_state.kind = e.data.kind then (.value (.ok none), { e with data := new_state })
      else (.value (.error "Incompatible state kind"), e)
    | some (.SensorConfiguration config) =>
      match durationFromSecsF32 (f32OneOver config.update_frequency_hz) with
      | .panicked msg => (.panicked msg, e)
      | .value d => (.value (.ok (some d)), e)
  else (.value (.error "Message arrived at wrong actuator"), e)

/-- Outcome of one `App::publish_data` call, as seen by `run_publish_data`:
success, a plain failure, or a failure for which `e.is_zmq_termination()` holds. -/
inductive PublishOutcome
  | success
  | failure
  | terminated
deriving DecidableEq, Repr

/-- Exit status of `App::run_publish_data` after consuming a finite trace of
publish outcomes. -/
inductive PublisherExit
  | exitedOk
  | exitedErr
  | running (error_counter : Nat)
deriving DecidableEq, Repr

/-- `App::run_publish_data` from `home_automation_entity/src/lib.rs`, as a function
of the error counter and the successive outcomes of `publish_data`:
`Err(e) if e.is_zmq_termination() => return Ok(())`;
`Err(e) if error_counter > 3 => return Err(e)`;
`Err(_) => error_counter += 1`; `Ok(_) => error_counter = 0`. -/
def run_publish_data : Nat → List PublishOutcome → PublisherExit
  | c, [] => .running c
  | _, .terminated :: _ => .exitedOk
  | c, .failure :: rest =>
    if c > 3 then .exitedErr else run_publish_data (c + 1) rest
  | _, .success :: rest => run_publish_data 0 rest

/-! ## Controller-level event system

Composition of the Discovery handler and the Timeout sweep with the Subscriber
control loop: every `SubscriptionCommand` a handler pushes onto the channel is
applied, in order, to the subscription set of the Subscriber socket
(`socket.subscribe` / `socket.unsubscribe` in `SubscriberTask::run`).  zmq keeps a
list of subscription filters: `subscribe` adds one, `unsubscribe` removes one
matching filter and is a no-op when none is present. -/

/-- Effect of one `SubscriptionCommand` on the socket's filter list. -/
def applySubscriptionCommand (subs : List String) (c : SubscriptionCommand) :
    List String :=
  match c.action with
  | .Subscribe => subs ++ [c.topic]
  | .Unsubscribe => subs.erase c.topic

/-- An event the controller processes: a discovery request (REGISTER / HEARTBEAT /
UNREGISTER, with arbitrary field contents) or one run of the Timeout sweep. -/
inductive ControllerEvent
  | request (cmd : EntityDiscoveryCommand) (ip : String) (now : Nat)
  | sweep (now : Nat)
deriving DecidableEq, Repr

/-- Controller state relevant to subscription parity: the registry plus the
subscription filters active on the Subscriber socket. -/
structure ControllerSys where
  registry : AppState
  subs : List String
deriving DecidableEq, Repr

/-- The initial controller state: empty registry, no subscriptions. -/
def initialSys : ControllerSys := ⟨⟨[]⟩, []⟩

/-- Process one event: run the corresponding handler, then drain its emitted
subscription commands into the Subscriber socket. -/
def stepEvent (sys : ControllerSys) (ev : ControllerEvent) : ControllerSys :=
  match ev with
  | .request cmd ip now =>
    let out := handle_command sys.registry cmd ip now
    ⟨out.2.1, out.2.2.foldl applySubscriptionCommand sys.subs⟩
  | .sweep now =>
    let out := unregister_dead_entities now sys.registry.entities
    ⟨⟨out.1⟩, out.2.foldl applySubscriptionCommand sys.subs⟩

/-- Process a sequence of events. -/
def runEvents (sys : ControllerSys) (evs : List ControllerEvent) : ControllerSys :=
  evs.foldl stepEvent sys

/-- The topic a registry row stands for: `entity_topic(name, kind)` where the kind
is `entity.state.entity_type()` (exactly what the Timeout sweep unsubscribes). -/
def rowTopic (p : String × Entity) : String :=
  entity_topic p.1 p.2.state.entity_type

/-- Subscription parity as a set property: a topic is subscribed (and not yet
unsubscribed) iff some current registry row derives it. -/
def subscriptionParity (sys : ControllerSys) : Prop :=
  ∀ t : String, t ∈ sys.subs ↔ ∃ p ∈ sys.registry.entities, rowTopic p = t

/-- Side condition under which parity survives: an UNREGISTER request for a
currently registered name must carry the entity type the row was registered
with (the handler trusts `request.entity_type` when building the unsubscribe
topic).  Requests for unknown names and all other events are unconstrained. -/
def eventOk (sys : ControllerSys) : ControllerEvent → Bool
  | .request cmd _ _ =>
    match cmd.command with
    | some .Unregister =>
      match sys.registry.entities.lookup cmd.entity_name with
      | some e => e.state.entity_type = cmd.entity_type
      | none => true
    | _ => true
  | .sweep _ => true

/-- `runEvents` together with the `eventOk` check at every step. -/
def runEventsOk : ControllerSys → List ControllerEvent → Bool
  | _, [] => true
  | sys, ev :: evs => eventOk sys ev && runEventsOk (stepEvent sys ev) evs

/-- The registry state a `PublishData` value is written as by
`SubscriberTask::inner_handle_client`. -/
def PublishValue.entityState : PublishValue → EntityState
  | .Measurement m => .Sensor m
  | .ActuatorState a => .Actuator a

/-- The inductive invariant behind subscription parity: the subscription filter list
is exactly the registry rows' topics (in registry order), and registry keys are
unique. -/
def SysInv (sys : ControllerSys) : Prop :=
  sys.subs = sys.registry.entities.map rowTopic ∧
    (sys.registry.entities.map Prod.fst).Nodup

/-! ## Registry and topic lemmas -/

theorem Registry.lookup_eq_none {r : Registry} {n : String} :
    r.lookup n = none ↔ n ∉ r.map Prod.fst := by
  induction r with
  | nil => simp [Registry.lookup]
  | cons p rest ih =>
    obtain ⟨k, e⟩ := p
    by_cases h : k = n
    · subst h
      simp [Registry.lookup]
    · simp [Registry.lookup, h, ih, Ne.symm h]

theorem Registry.lookup_append_of_some {r l : Registry} {n : String} {e : Entity}
    (h : r.lookup n = some e) : Registry.lookup (r ++ l) n = some e := by
  induction r with
  | nil => simp [Registry.lookup] at h
  | cons p rest ih =>
    obtain ⟨k, e'⟩ := p
    by_cases hk : k = n
    · subst hk
      simp_all [Registry.lookup]
    · simp_all [Registry.lookup, hk]

theorem Registry.lookup_append_of_none {r l : Registry} {n : String}
    (h : r.lookup n = none) : Registry.lookup (r ++ l) n = l.lookup n := by
  induction r with
  | nil => simp [Registry.lookup]
  | cons p rest ih =>
    obtain ⟨k, e'⟩ := p
    by_cases hk : k = n
    · simp_all [Registry.lookup]
    · simp_all [Registry.lookup, hk]

theorem Registry.lookup_update_self {r : Registry} {n : String} {f : Entity → Entity}
    {e : Entity} (h : r.lookup n = some e) :
    Registry.lookup (r.update n f) n = some (f e) := by
  induction r with
  | nil => simp [Registry.lookup] at h
  | cons p rest ih =>
    obtain ⟨k, e'⟩ := p
    by_cases hk : k = n
    · subst hk
      simp_all [Registry.lookup, Registry.update]
    · simp_all [Registry.lookup, Registry.update, hk]

theorem Registry.lookup_update_of_ne {r : Registry} {n m : String} {f : Entity → Entity}
    (h : m ≠ n) : Registry.lookup (r.update n f) m = r.lookup m := by
  induction r with
  | nil => simp [Registry.update]
  | cons p rest ih =>
    obtain ⟨k, e'⟩ := p
    by_cases hk : k = n
    · subst hk
      simp [Registry.update, Registry.lookup, Ne.symm h, ih]
    · by_cases hm : k = m <;> simp [Registry.update, Registry.lookup, hk, hm, h, ih]

theorem Registry.map_fst_update {r : Registry} {n : String} {f : Entity → Entity} :
    (r.update n f).map Prod.fst = r.map Prod.fst := by
  induction r with
  | nil => simp [Registry.update]
  | cons p rest ih =>
    obtain ⟨k, e'⟩ := p
    by_cases hk : k = n <;> simp [Registry.update, hk, ih]

theorem Registry.remove_sublist (r : Registry) (n : String) :
    (r.remove n).Sublist r := by
  induction r with
  | nil => simp [Registry.remove]
  | cons p rest ih =>
    obtain ⟨k, e'⟩ := p
    by_cases hk : k = n
    · simp only [Registry.remove, hk, if_pos]
      exact (List.sublist_cons_self _ _)
    · simp only [Registry.remove, hk, if_neg, not_false_iff]
      exact ih.cons₂ _

theorem Registry.lookup_remove_self {r : Registry} {n : String}
    (hnd : (r.map Prod.fst).Nodup) : Registry.lookup (r.remove n) n = none := by
  induction r with
  | nil => simp [Registry.remove, Registry.lookup]
  | cons p rest ih =>
    obtain ⟨k, e'⟩ := p
    simp only [List.map_cons, List.nodup_cons] at hnd
    by_cases hk : k = n
    · subst hk
      simp only [Registry.remove, if_pos rfl]
      exact Registry.lookup_eq_none.mpr hnd.1
    · simp [Registry.remove, Registry.lookup, hk, ih hnd.2]

theorem Registry.lookup_remove_of_ne {r : Registry} {n m : String} (h : m ≠ n) :
    Registry.lookup (r.remove n) m = r.lookup m := by
  induction r with
  | nil => simp [Registry.remove]
  | cons p rest ih =>
    obtain ⟨k, e'⟩ := p
    by_cases hk : k = n
    · subst hk
      simp [Registry.remove, Registry.lookup, Ne.symm h, ih]
    · by_cases hm : k = m <;> simp [Registry.remove, Registry.lookup, hk, hm, h, ih]

theorem sensor_topic_name_inj {m n : String}
    (h : sensor_measurement_topic m = sensor_measurement_topic n) : m = n := by
  have hd := congrArg String.data h
  rw [sensor_measurement_topic, sensor_measurement_topic, String.data_append,
    String.data_append] at hd
  exact String.ext (List.append_cancel_left hd)

theorem actuator_topic_name_inj {m n : String}
    (h : actuator_state_topic m = actuator_state_topic n) : m = n := by
  have hd := congrArg String.data h
  rw [actuator_state_topic, actuator_state_topic, String.data_append,
    String.data_append] at hd
  exact String.ext (List.append_cancel_left hd)

theorem sensor_topic_ne_actuator_topic {m n : String} :
    sensor_measurement_topic m ≠ actuator_state_topic n := by
  intro h
  have hd := congrArg String.data h
  rw [sensor_measurement_topic, actuator_state_topic, String.data_append,
    String.data_append] at hd
  have h1 := congrArg (fun l => l[1]?) hd
  simp only at h1
  rw [List.getElem?_append_left (by decide), List.getElem?_append_left (by decide)] at h1
  exact absurd h1 (by decide)

theorem entity_topic_name_inj {m n : String} {k₁ k₂ : EntityType}
    (h : entity_topic m k₁ = entity_topic n k₂) : m = n := by
  cases k₁ <;> cases k₂ <;> simp only [entity_topic] at h
  · exact sensor_topic_name_inj h
  · exact absurd h sensor_topic_ne_actuator_topic
  · exact absurd h.symm sensor_topic_ne_actuator_topic
  · exact actuator_topic_name_inj h

theorem nodup_map_rowTopic {r : Registry} (h : (r.map Prod.fst).Nodup) :
    (r.map rowTopic).Nodup := by
  induction r with
  | nil => simp
  | cons p rest ih =>
    obtain ⟨k, e⟩ := p
    simp only [List.map_cons, List.nodup_cons] at h ⊢
    refine ⟨?_, ih h.2⟩
    intro hmem
    obtain ⟨q, hq, heq⟩ := List.mem_map.mp hmem
    have hqk : q.1 = k := entity_topic_name_inj heq
    exact h.1 (hqk ▸ List.mem_map_of_mem Prod.fst hq)

theorem entity_topic_not_mem_map_rowTopic {r : Registry} {n : String} {ty : EntityType}
    (h : r.lookup n = none) : entity_topic n ty ∉ r.map rowTopic := by
  intro hmem
  obtain ⟨q, hq, heq⟩ := List.mem_map.mp hmem
  have hqn : n = q.1 := entity_topic_name_inj heq.symm
  refine Registry.lookup_eq_none.mp h ?_
  rw [hqn]
  exact List.mem_map_of_mem Prod.fst hq

theorem map_rowTopic_erase {r : Registry} {n : String} {e : Entity}
    (hnd : (r.map Prod.fst).Nodup) (h : r.lookup n = some e) :
    (r.map rowTopic).erase (entity_topic n e.state.entity_type) =
      (r.remove n).map rowTopic := by
  induction r with
  | nil => simp [Registry.lookup] at h
  | cons p rest ih =>
    obtain ⟨k, e'⟩ := p
    simp only [List.map_cons, List.nodup_cons] at hnd
    by_cases hk : k = n
    · subst hk
      rw [Registry.lookup, if_pos rfl, Option.some_inj] at h
      subst h
      simp [Registry.remove, rowTopic, List.erase_cons_head]
    · rw [Registry.lookup, if_neg hk] at h
      have hne : rowTopic (k, e') ≠ entity_topic n e.state.entity_type := by
        intro heq
        exact hk (entity_topic_name_inj heq)
      rw [List.map_cons, List.erase_cons_tail (by simp [hne]),
        Registry.remove, if_neg hk, List.map_cons, ih hnd.2 h]

theorem unregister_dead_fst (now : Nat) (r : Registry) :
    (unregister_dead_entities now r).1 = r.filter (fun p => rowAlive now p.2) := by
  induction r with
  | nil => simp [unregister_dead_entities]
  | cons p rest ih =>
    obtain ⟨k, e⟩ := p
    rcases hu : unregister_dead_entities now rest with ⟨r', cmds⟩
    by_cases ha : rowAlive now e <;>
      simp_all [unregister_dead_entities, hu, List.filter_cons, ha]

theorem unregister_dead_snd (now : Nat) (r : Registry) :
    (unregister_dead_entities now r).2 =
      (r.filter (fun p => !(rowAlive now p.2))).map
        (fun p => SubscriptionCommand.unsubscribe (rowTopic p)) := by
  induction r with
  | nil => simp [unregister_dead_entities]
  | cons p rest ih =>
    obtain ⟨k, e⟩ := p
    rcases hu : unregister_dead_entities now rest with ⟨r', cmds⟩
    by_cases ha : rowAlive now e <;>
      simp_all [unregister_dead_entities, hu, List.filter_cons, ha, rowTopic]

theorem unregister_dead_cmds_topics (now : Nat) (r : Registry) :
    ∀ c ∈ (unregister_dead_entities now r).2, c.topic ∈ r.map rowTopic := by
  intro c hc
  rw [unregister_dead_snd] at hc
  obtain ⟨p, hp, rfl⟩ := List.mem_map.mp hc
  exact List.mem_map_of_mem rowTopic (List.mem_of_mem_filter hp)

theorem foldl_apply_cons {cmds : List SubscriptionCommand} {a : String}
    (h : ∀ c ∈ cmds, c.topic ≠ a) :
    ∀ l : List String,
      cmds.foldl applySubscriptionCommand (a :: l) =
        a :: cmds.foldl applySubscriptionCommand l := by
  induction cmds with
  | nil => intro l; rfl
  | cons c cs ih =>
    intro l
    have hc := h c (List.mem_cons_self c cs)
    have hstep : applySubscriptionCommand (a :: l) c =
        a :: applySubscriptionCommand l c := by
      cases hact : c.action <;> simp [applySubscriptionCommand, hact]
      exact List.erase_cons_tail (by simp [Ne.symm hc])
    rw [List.foldl_cons, hstep, List.foldl_cons,
      ih (fun c' hc' => h c' (List.mem_cons_of_mem c hc'))]

theorem sweep_subs {now : Nat} {r : Registry} (h : (r.map rowTopic).Nodup) :
    (unregister_dead_entities now r).2.foldl applySubscriptionCommand (r.map rowTopic) =
      (unregister_dead_entities now r).1.map rowTopic := by
  induction r with
  | nil => simp [unregister_dead_entities]
  | cons p rest ih =>
    obtain ⟨k, e⟩ := p
    simp only [List.map_cons, List.nodup_cons] at h
    rcases hu : unregister_dead_entities now rest with ⟨r', cmds⟩
    have ihr := ih h.2
    rw [hu] at ihr
    dsimp only at ihr
    by_cases ha : rowAlive now e
    · have hcmds : ∀ c ∈ cmds, c.topic ≠ rowTopic (k, e) := by
        intro c hc heq
        have := unregister_dead_cmds_topics now rest c (by rw [hu]; exact hc)
        exact h.1 (heq ▸ this)
      simp only [unregister_dead_entities, hu, if_pos ha]
      rw [List.map_cons, foldl_apply_cons hcmds, ihr, List.map_cons]
    · simp only [unregister_dead_entities, hu, if_neg ha]
      rw [List.map_cons, List.foldl_cons]
      have hstep : applySubscriptionCommand (rowTopic (k, e) :: rest.map rowTopic)
          (SubscriptionCommand.unsubscribe (entity_topic k e.state.entity_type)) =
          rest.map rowTopic := by
        simp [applySubscriptionCommand, SubscriptionCommand.unsubscribe, rowTopic,
          List.erase_cons_head]
      rw [hstep, ihr]

theorem map_rowTopic_update_of_state_eq {r : Registry} {n : String}
    {f : Entity → Entity} (hf : ∀ e, (f e).state = e.state) :
    (r.update n f).map rowTopic = r.map rowTopic := by
  induction r with
  | nil => simp [Registry.update]
  | cons p rest ih =>
    obtain ⟨k, e⟩ := p
    by_cases hk : k = n <;> simp [Registry.update, hk, ih, rowTopic, hf]

theorem stepEvent_inv {sys : ControllerSys} {ev : ControllerEvent}
    (hinv : SysInv sys) (hok : eventOk sys ev = true) : SysInv (stepEvent sys ev) := by
  obtain ⟨hsubs, hnd⟩ := hinv
  cases ev with
  | sweep now =>
    have hs : stepEvent sys (.sweep now) =
        ⟨⟨(unregister_dead_entities now sys.registry.entities).1⟩,
          (unregister_dead_entities now sys.registry.entities).2.foldl
            applySubscriptionCommand sys.subs⟩ := rfl
    rw [hs]
    refine ⟨?_, ?_⟩
    · dsimp only
      rw [hsubs, sweep_subs (nodup_map_rowTopic hnd)]
    · dsimp only
      rw [unregister_dead_fst]
      exact hnd.sublist ((List.filter_sublist _).map Prod.fst)
  | request cmd ip now =>
    obtain ⟨n, ty, cmdk⟩ := cmd
    match cmdk with
    | none => exact ⟨hsubs, hnd⟩
    | some (.Register port) =>
      rcases hl : Registry.lookup sys.registry.entities n with _ | e
      · have hs : stepEvent sys (.request ⟨n, ty, some (.Register port)⟩ ip now) =
            ⟨⟨sys.registry.entities.insertNew n
                (Entity.new (open_back_channel ip port) ty now)⟩,
              sys.subs ++ [entity_topic n ty]⟩ := by
          simp [stepEvent, handle_command, hl, applySubscriptionCommand,
            SubscriptionCommand.subscribe]
        rw [hs]
        refine ⟨?_, ?_⟩
        · dsimp only
          rw [hsubs, Registry.insertNew, List.map_append]
          rfl
        · dsimp only
          have hn : n ∉ sys.registry.entities.map Prod.fst :=
            Registry.lookup_eq_none.mp hl
          rw [Registry.insertNew, List.map_append]
          simp [List.nodup_append, hnd, hn]
      · have hs : stepEvent sys (.request ⟨n, ty, some (.Register port)⟩ ip now) = sys := by
          simp [stepEvent, handle_command, hl]
        rw [hs]
        exact ⟨hsubs, hnd⟩
    | some .Heartbeat =>
      rcases hl : Registry.lookup sys.registry.entities n with _ | e
      · have hs : stepEvent sys (.request ⟨n, ty, some .Heartbeat⟩ ip now) = sys := by
          simp [stepEvent, handle_command, hl]
        rw [hs]
        exact ⟨hsubs, hnd⟩
      · have hs : stepEvent sys (.request ⟨n, ty, some .Heartbeat⟩ ip now) =
            ⟨⟨sys.registry.entities.update n
                (fun e => { e with last_heartbeat_pulse := now })⟩, sys.subs⟩ := by
          simp [stepEvent, handle_command, hl]
        rw [hs]
        refine ⟨?_, ?_⟩
        · dsimp only
          rw [hsubs]
          exact (map_rowTopic_update_of_state_eq
            (f := fun e => { e with last_heartbeat_pulse := now }) (fun e => rfl)).symm
        · dsimp only
          rw [Registry.map_fst_update]
          exact hnd
    | some .Unregister =>
      rcases hl : Registry.lookup sys.registry.entities n with _ | e
      · have hs : stepEvent sys (.request ⟨n, ty, some .Unregister⟩ ip now) =
            ⟨sys.registry, sys.subs.erase (entity_topic n ty)⟩ := by
          simp [stepEvent, handle_command, AppState.unregister, hl,
            applySubscriptionCommand, SubscriptionCommand.unsubscribe]
        rw [hs]
        refine ⟨?_, hnd⟩
        dsimp only
        rw [hsubs]
        exact List.erase_of_not_mem (entity_topic_not_mem_map_rowTopic hl)
      · have hty : e.state.entity_type = ty := by
          simpa [eventOk, hl] using hok
        have hs : stepEvent sys (.request ⟨n, ty, some .Unregister⟩ ip now) =
            ⟨⟨sys.registry.entities.remove n⟩,
              sys.subs.erase (entity_topic n ty)⟩ := by
          simp [stepEvent, handle_command, AppState.unregister, hl,
            applySubscriptionCommand, SubscriptionCommand.unsubscribe]
        rw [hs]
        refine ⟨?_, ?_⟩
        · dsimp only
          rw [hsubs, ← hty, map_rowTopic_erase hnd hl]
        · dsimp only
          exact hnd.sublist ((Registry.remove_sublist _ _).map Prod.fst)

theorem runEvents_inv : ∀ (evs : List ControllerEvent) (sys : ControllerSys),
    SysInv sys → runEventsOk sys evs = true → SysInv (runEvents sys evs) := by
  intro evs
  induction evs with
  | nil => intro sys hinv _; exact hinv
  | cons ev evs ih =>
    intro sys hinv hok
    rw [runEventsOk, Bool.and_eq_true] at hok
    exact ih (stepEvent sys ev) (stepEvent_inv hinv hok.1) hok.2

/-! ## Claim theorems -/

/-- **C1.** The claim states that an entity publishes on the topic derived from its
registered `entity_name`.  The code registers a sensor started with base name
`kitchen` under `sen_kitchen` (and an actuator under `act_…`) but publishes on
`/measurement/kitchen`, while the topic derived from the registered name — the one
the controller subscribes to — is `/measurement/sen_kitchen`; the two differ, so
the claim fails on the code. -/
theorem c1_publish_topic_vs_registered_name :
    (SensorEntity.new "kitchen" .Temperature).topic = "/measurement/kitchen"
    ∧ ((SensorEntity.new "kitchen" .Temperature).discovery_command
        (.Register 5)).entity_name = "sen_kitchen"
    ∧ entity_topic "sen_kitchen" .sensor = "/measurement/sen_kitchen"
    ∧ (SensorEntity.new "kitchen" .Temperature).topic ≠
        entity_topic ((SensorEntity.new "kitchen" .Temperature).discovery_command
          (.Register 5)).entity_name .sensor
    ∧ (ActuatorEntity.new "porch" .Light).topic = "/actuator_state/porch"
    ∧ ((ActuatorEntity.new "porch" .Light).discovery_command
        (.Register 6)).entity_name = "act_porch"
    ∧ (ActuatorEntity.new "porch" .Light).topic ≠
        entity_topic ((ActuatorEntity.new "porch" .Light).discovery_command
          (.Register 6)).entity_name .actuator := by
  refine ⟨rfl, rfl, rfl, by decide, rfl, rfl, by decide⟩

/-- **C4, counterexample.** A row whose elapsed time since its last heartbeat is
exactly `2 × HEARTBEAT_FREQUENCY` is removed by the sweep, although the claim says
only rows strictly above the threshold are removed. -/
theorem c4_counterexample :
    (unregister_dead_entities (2 * HEARTBEAT_FREQUENCY)
        [("a", ⟨.New .sensor, 0, ⟨"tcp://10.0.0.2:5"⟩⟩)]).1 = []
    ∧ ¬ ((2 * HEARTBEAT_FREQUENCY : Nat) - 0 > 2 * HEARTBEAT_FREQUENCY) := by
  exact ⟨rfl, by omega⟩

/-- **C4, as amended.** Each sweep removes exactly the rows whose elapsed time since
`last_heartbeat_pulse` is at least `2 × HEARTBEAT_FREQUENCY` (rows strictly below
the threshold are kept), and emits, in registry order, one `Unsubscribe` command
for the topic of every removed row; the sweep triggers once the time since the
last run exceeds `HEARTBEAT_FREQUENCY`, polled every 100 ms. -/
theorem c4_sweep_characterization (now : Nat) (r : Registry) :
    (unregister_dead_entities now r).1 =
      r.filter (fun p => decide (now - p.2.last_heartbeat_pulse < 2 * HEARTBEAT_FREQUENCY))
    ∧ (unregister_dead_entities now r).2 =
        (r.filter (fun p =>
          !(decide (now - p.2.last_heartbeat_pulse < 2 * HEARTBEAT_FREQUENCY)))).map
          (fun p => SubscriptionCommand.unsubscribe (entity_topic p.1 p.2.state.entity_type))
    ∧ timeoutPollInterval = 100
    ∧ (∀ lastRun t : Nat, sweepDue lastRun t = true ↔ t - lastRun > HEARTBEAT_FREQUENCY) := by
  refine ⟨?_, ?_, rfl, ?_⟩
  · rw [unregister_dead_fst]
    apply List.filter_congr
    intro p _
    simp [rowAlive, Nat.mul_comm]
  · rw [unregister_dead_snd]
    have hf : r.filter (fun p => !(rowAlive now p.2)) =
        r.filter (fun p =>
          !(decide (now - p.2.last_heartbeat_pulse < 2 * HEARTBEAT_FREQUENCY))) := by
      apply List.filter_congr
      intro p _
      simp [rowAlive, Nat.mul_comm]
    rw [hf]
    rfl
  · intro lastRun t
    simp [sweepDue, gt_iff_lt]

/-- **C4, witness.** The sweep characterization at a two-row registry: a stale row
is dropped with its unsubscribe command, a fresh row survives. -/
theorem c4_witness :
    (unregister_dead_entities 25000
        [("a", ⟨.New .sensor, 0, ⟨"x"⟩⟩), ("b", ⟨.New .actuator, 20000, ⟨"y"⟩⟩)]).1 =
      [("b", ⟨.New .actuator, 20000, ⟨"y"⟩⟩)]
    ∧ (unregister_dead_entities 25000
        [("a", ⟨.New .sensor, 0, ⟨"x"⟩⟩), ("b", ⟨.New .actuator, 20000, ⟨"y"⟩⟩)]).2 =
      [SubscriptionCommand.unsubscribe "/measurement/a"] := by
  have h := c4_sweep_characterization 25000
    [("a", ⟨.New .sensor, 0, ⟨"x"⟩⟩), ("b", ⟨.New .actuator, 20000, ⟨"y"⟩⟩)]
  exact ⟨h.1.trans (by decide), h.2.1.trans (by decide)⟩

/-- **C5, counterexample.** After three (even four) consecutive publish failures the
publisher loop is still running; it has not exited with an error as the claim
states. -/
theorem c5_counterexample :
    run_publish_data 0 [.failure, .failure, .failure] = .running 3
    ∧ run_publish_data 0 [.failure, .failure, .failure, .failure] = .running 4 := by
  exact ⟨rfl, rfl⟩

/-- **C5, as amended.** The publisher loop exits with an error on the fifth
consecutive publish failure (the `error_counter > 3` guard is checked before the
counter is incremented), any successful publish resets the consecutive-failure
count to zero, and a fabric-termination error makes it exit cleanly with `Ok`. -/
theorem c5_publisher_failure_threshold :
    (∀ k : Nat, run_publish_data 0 (List.replicate k .failure) =
        if k ≤ 4 then .running k else .exitedErr)
    ∧ (∀ (c : Nat) (rest : List PublishOutcome),
        run_publish_data c (.success :: rest) = run_publish_data 0 rest)
    ∧ (∀ (c : Nat) (rest : List PublishOutcome),
        run_publish_data c (.terminated :: rest) = .exitedOk) := by
  refine ⟨?_, fun c rest => rfl, fun c rest => rfl⟩
  intro k
  match k with
  | 0 => rfl
  | 1 => rfl
  | 2 => rfl
  | 3 => rfl
  | 4 => rfl
  | (m + 5) =>
    rw [if_neg (by omega)]
    simp [List.replicate_succ, run_publish_data]

/-- **C9.** The claim states `handle_incoming_data` never panics, in particular not
for `update_frequency_hz = 0` or negative values.  The code computes
`Duration::from_secs_f32(1. / hz)`: for `hz = 0` the division yields `+inf` and
`from_secs_f32` panics; a negative `hz` yields a negative duration and also
panics.  Both the sensor and the actuator handler hit this. -/
theorem c9_zero_hz_config_panics :
    (SensorEntity.new "a" .Temperature).handle_incoming_data
        ⟨"sen_a", some (.SensorConfiguration ⟨.finite 0⟩)⟩ =
      .panicked "can not convert float seconds to Duration"
    ∧ ((ActuatorEntity.new "b" .Light).handle_incoming_data
        ⟨"act_b", some (.SensorConfiguration ⟨.finite 0⟩)⟩).1 =
      .panicked "can not convert float seconds to Duration"
    ∧ (SensorEntity.new "a" .Temperature).handle_incoming_data
        ⟨"sen_a", some (.SensorConfiguration ⟨.finite (-1)⟩)⟩ =
      .panicked "can not convert float seconds to Duration" := by
  refine ⟨rfl, rfl, by decide⟩

/-- **C10.** An UNREGISTER for a name not in the registry replies `Error` and leaves
the registry unchanged, but the handler has already pushed an `Unsubscribe`
command for `entity_topic(entity_name, entity_type-as-given)` onto the Subscriber
channel before the lookup fails. -/
theorem c10_unregister_unknown_side_effect (s : AppState) (n : String)
    (ty : EntityType) (ip : String) (now : Nat)
    (h : s.entities.lookup n = none) :
    responseOf (handle_command s ⟨n, ty, some .Unregister⟩ ip now).1 = ⟨.Error⟩
    ∧ (handle_command s ⟨n, ty, some .Unregister⟩ ip now).2.1 = s
    ∧ (handle_command s ⟨n, ty, some .Unregister⟩ ip now).2.2 =
        [SubscriptionCommand.unsubscribe (entity_topic n ty)] := by
  simp [handle_command, AppState.unregister, h, responseOf]

/-- **C10, witness.** The unknown-unregister behaviour at a concrete one-row
registry and a request for an absent name. -/
theorem c10_witness :
    responseOf (handle_command ⟨[("b", ⟨.New .actuator, 0, ⟨"y"⟩⟩)]⟩
        ⟨"a", .sensor, some .Unregister⟩ "10.0.0.2" 3).1 = ⟨.Error⟩
    ∧ (handle_command ⟨[("b", ⟨.New .actuator, 0, ⟨"y"⟩⟩)]⟩
        ⟨"a", .sensor, some .Unregister⟩ "10.0.0.2" 3).2.1 =
      ⟨[("b", ⟨.New .actuator, 0, ⟨"y"⟩⟩)]⟩
    ∧ (handle_command ⟨[("b", ⟨.New .actuator, 0, ⟨"y"⟩⟩)]⟩
        ⟨"a", .sensor, some .Unregister⟩ "10.0.0.2" 3).2.2 =
      [SubscriptionCommand.unsubscribe "/measurement/a"] :=
  c10_unregister_unknown_side_effect ⟨[("b", ⟨.New .actuator, 0, ⟨"y"⟩⟩)]⟩
    "a" .sensor "10.0.0.2" 3 (by decide)

/-- **C7.** Handling a client Action replies `Error` when the target is not
registered, and replies `Error` when the back-channel exchange fails or the entity
answers `Error`; in every case the registry is returned unchanged (the row is not
removed), and the reply is `Ok` exactly when the target exists and the entity
answered `Ok`. -/
theorem c7_action_forwarding (s : AppState) (es : NamedEntityState)
    (bc : Option ResponseCode) :
    (handle_entity_state_command s es bc).2 = s
    ∧ (s.entities.lookup es.entity_name = none →
        responseOf (handle_entity_state_command s es bc).1 = ⟨.Error⟩)
    ∧ ((bc = none ∨ bc = some ⟨.Error⟩) →
        responseOf (handle_entity_state_command s es bc).1 = ⟨.Error⟩)
    ∧ (responseOf (handle_entity_state_command s es bc).1 = ⟨.Ok⟩ ↔
        (∃ e, s.entities.lookup es.entity_name = some e) ∧ bc = some ⟨.Ok⟩) := by
  rcases hl : s.entities.lookup es.entity_name with _ | e
  · simp [handle_entity_state_command, hl, responseOf]
  · rcases bc with _ | rc
    · simp [handle_entity_state_command, hl, responseOf]
    · obtain ⟨c⟩ := rc
      cases c <;> simp [handle_entity_state_command, hl, responseOf]

/-- **C7, witness.** A registered target together with an `Ok` answer from the
entity yields an `Ok` reply and the registry row survives. -/
theorem c7_witness :
    (handle_entity_state_command ⟨[("a", ⟨.New .sensor, 0, ⟨"x"⟩⟩)]⟩ ⟨"a", none⟩
        (some ⟨.Ok⟩)).2 = ⟨[("a", ⟨.New .sensor, 0, ⟨"x"⟩⟩)]⟩
    ∧ responseOf (handle_entity_state_command ⟨[("a", ⟨.New .sensor, 0, ⟨"x"⟩⟩)]⟩
        ⟨"a", none⟩ (some ⟨.Ok⟩)).1 = ⟨.Ok⟩ := by
  have h := c7_action_forwarding ⟨[("a", ⟨.New .sensor, 0, ⟨"x"⟩⟩)]⟩ ⟨"a", none⟩
    (some ⟨.Ok⟩)
  exact ⟨h.1, h.2.2.2.mpr ⟨⟨⟨.New .sensor, 0, ⟨"x"⟩⟩, by decide⟩, rfl⟩⟩

/-- **C8.** A Heartbeat for an unknown name replies `Error` and changes nothing; for
a registered name it sets that row's `last_heartbeat_pulse` to now and replies
`Ok`, leaving the row's state (hence kind) and back-channel, and every other row,
unchanged; no subscription command is emitted either way. -/
theorem c8_heartbeat_effect (s : AppState) (n : String) (ty : EntityType)
    (ip : String) (now : Nat) :
    (s.entities.lookup n = none →
      responseOf (handle_command s ⟨n, ty, some .Heartbeat⟩ ip now).1 = ⟨.Error⟩
      ∧ (handle_command s ⟨n, ty, some .Heartbeat⟩ ip now).2.1 = s
      ∧ (handle_command s ⟨n, ty, some .Heartbeat⟩ ip now).2.2 = [])
    ∧ (∀ e, s.entities.lookup n = some e →
        responseOf (handle_command s ⟨n, ty, some .Heartbeat⟩ ip now).1 = ⟨.Ok⟩
        ∧ (handle_command s ⟨n, ty, some .Heartbeat⟩ ip now).2.2 = []
        ∧ (handle_command s ⟨n, ty, some .Heartbeat⟩ ip now).2.1.entities.lookup n =
            some { state := e.state, last_heartbeat_pulse := now,
                   connection := e.connection }
        ∧ (∀ m, m ≠ n →
            (handle_command s ⟨n, ty, some .Heartbeat⟩ ip now).2.1.entities.lookup m =
              s.entities.lookup m)) := by
  constructor
  · intro hl
    simp [handle_command, hl, responseOf]
  · intro e hl
    refine ⟨?_, ?_, ?_, ?_⟩
    · simp [handle_command, hl, responseOf]
    · simp [handle_command, hl]
    · simp only [handle_command, hl]
      exact Registry.lookup_update_self hl
    · intro m hm
      simp only [handle_command, hl]
      exact Registry.lookup_update_of_ne hm

/-- **C8, witness.** A heartbeat at time 7 for the registered row `a` refreshes its
timestamp and leaves the other row `b` untouched. -/
theorem c8_witness :
    responseOf (handle_command ⟨[("a", ⟨.New .sensor, 0, ⟨"x"⟩⟩),
        ("b", ⟨.New .actuator, 1, ⟨"y"⟩⟩)]⟩ ⟨"a", .sensor, some .Heartbeat⟩
        "10.0.0.2" 7).1 = ⟨.Ok⟩
    ∧ (handle_command ⟨[("a", ⟨.New .sensor, 0, ⟨"x"⟩⟩),
        ("b", ⟨.New .actuator, 1, ⟨"y"⟩⟩)]⟩ ⟨"a", .sensor, some .Heartbeat⟩
        "10.0.0.2" 7).2.1.entities.lookup "a" = some ⟨.New .sensor, 7, ⟨"x"⟩⟩
    ∧ (handle_command ⟨[("a", ⟨.New .sensor, 0, ⟨"x"⟩⟩),
        ("b", ⟨.New .actuator, 1, ⟨"y"⟩⟩)]⟩ ⟨"a", .sensor, some .Heartbeat⟩
        "10.0.0.2" 7).2.1.entities.lookup "b" = some ⟨.New .actuator, 1, ⟨"y"⟩⟩ := by
  have h := (c8_heartbeat_effect ⟨[("a", ⟨.New .sensor, 0, ⟨"x"⟩⟩),
    ("b", ⟨.New .actuator, 1, ⟨"y"⟩⟩)]⟩ "a" .sensor "10.0.0.2" 7).2
    ⟨.New .sensor, 0, ⟨"x"⟩⟩ (by decide)
  refine ⟨h.1, h.2.2.1, ?_⟩
  rw [h.2.2.2 "b" (by decide)]
  decide

/-- **C3.** A Register request for an already present `entity_name` replies `Error`,
changes nothing and emits no command; for a fresh name it replies `Ok`, inserts
exactly one row whose state is `New(entity_type)`, whose heartbeat stamp is the
current time and whose back-channel is connected to `tcp://<peer_ip>:<port>`,
leaves every other row unchanged, and emits one Subscribe command for
`entity_topic(entity_name, entity_type)`. -/
theorem c3_register_effect (s : AppState) (n : String) (ty : EntityType)
    (port : Nat) (ip : String) (now : Nat) :
    ((∃ e, s.entities.lookup n = some e) →
      responseOf (handle_command s ⟨n, ty, some (.Register port)⟩ ip now).1 = ⟨.Error⟩
      ∧ (handle_command s ⟨n, ty, some (.Register port)⟩ ip now).2.1 = s
      ∧ (handle_command s ⟨n, ty, some (.Register port)⟩ ip now).2.2 = [])
    ∧ (s.entities.lookup n = none →
      responseOf (handle_command s ⟨n, ty, some (.Register port)⟩ ip now).1 = ⟨.Ok⟩
      ∧ (handle_command s ⟨n, ty, some (.Register port)⟩ ip now).2.1.entities.lookup n =
          some ⟨.New ty, now, ⟨"tcp://" ++ ip ++ ":" ++ toString port⟩⟩
      ∧ (∀ m, m ≠ n →
          (handle_command s ⟨n, ty, some (.Register port)⟩ ip now).2.1.entities.lookup m =
            s.entities.lookup m)
      ∧ (handle_command s ⟨n, ty, some (.Register port)⟩ ip now).2.1.entities.length =
          s.entities.length + 1
      ∧ (handle_command s ⟨n, ty, some (.Register port)⟩ ip now).2.2 =
          [SubscriptionCommand.subscribe (entity_topic n ty)]) := by
  constructor
  · rintro ⟨e, hl⟩
    simp [handle_command, hl, responseOf]
  · intro hl
    refine ⟨?_, ?_, ?_, ?_, ?_⟩
    · simp [handle_command, hl, responseOf]
    · simp only [handle_command, hl]
      rw [Registry.insertNew, Registry.lookup_append_of_none hl]
      simp [Registry.lookup, Entity.new, open_back_channel]
    · intro m hm
      simp only [handle_command, hl]
      rcases hm' : s.entities.lookup m with _ | e'
      · rw [Registry.insertNew, Registry.lookup_append_of_none hm']
        simp [Registry.lookup, Ne.symm hm]
      · rw [Registry.insertNew, Registry.lookup_append_of_some hm']
    · simp [handle_command, hl, Registry.insertNew]
    · simp [handle_command, hl]

/-- **C3, witness.** Registering `a` as a sensor from peer `10.0.0.2` port 5 into an
empty registry: `Ok` reply, one row `New(Sensor)` stamped now with the right
back-channel address, and one Subscribe command. -/
theorem c3_witness :
    responseOf (handle_command ⟨[]⟩ ⟨"a", .sensor, some (.Register 5)⟩
        "10.0.0.2" 42).1 = ⟨.Ok⟩
    ∧ (handle_command ⟨[]⟩ ⟨"a", .sensor, some (.Register 5)⟩
        "10.0.0.2" 42).2.1.entities.lookup "a" =
      some ⟨.New .sensor, 42, ⟨"tcp://10.0.0.2:5"⟩⟩
    ∧ (handle_command ⟨[]⟩ ⟨"a", .sensor, some (.Register 5)⟩
        "10.0.0.2" 42).2.2 = [SubscriptionCommand.subscribe "/measurement/a"] := by
  have h := (c3_register_effect ⟨[]⟩ "a" .sensor 5 "10.0.0.2" 42).2 (by decide)
  exact ⟨h.1, h.2.1.trans (by decide), h.2.2.2.2.trans (by decide)⟩

theorem Registry.lookup_filter {r : Registry} {q : String × Entity → Bool}
    {n : String} {e e' : Entity} (hnd : (r.map Prod.fst).Nodup)
    (h : r.lookup n = some e)
    (h' : Registry.lookup (r.filter q) n = some e') : e' = e := by
  induction r with
  | nil => simp [Registry.lookup] at h
  | cons p rest ih =>
    obtain ⟨k, a⟩ := p
    simp only [List.map_cons, List.nodup_cons] at hnd
    by_cases hk : k = n
    · subst hk
      rw [Registry.lookup, if_pos rfl, Option.some_inj] at h
      rcases hq : q (k, a) with _ | _
      · rw [List.filter_cons, hq] at h'
        simp only [Bool.false_eq_true, if_neg, not_false_iff] at h'
        have : Registry.lookup (rest.filter q) k = none := by
          refine Registry.lookup_eq_none.mpr ?_
          intro hmem
          exact hnd.1 ((List.filter_sublist rest).map Prod.fst |>.mem hmem)
        rw [this] at h'
        cases h'
      · rw [List.filter_cons, hq] at h'
        simp only [if_pos] at h'
        rw [Registry.lookup, if_pos rfl, Option.some_inj] at h'
        exact h' ▸ h
    · rw [Registry.lookup, if_neg hk] at h
      rcases hq : q (k, a) with _ | _
      · rw [List.filter_cons, hq] at h'
        simp only [Bool.false_eq_true, if_neg, not_false_iff] at h'
        exact ih hnd.2 h h'
      · rw [List.filter_cons, hq] at h'
        simp only [if_pos] at h'
        rw [Registry.lookup, if_neg hk] at h'
        exact ih hnd.2 h h'

/-- **C6, counterexample.** The Subscriber writes whatever kind the sample carries:
ingesting a `/measurement/…` sample for the row `a` registered as an actuator
succeeds and flips the row's kind from Actuator to Sensor. -/
theorem c6_counterexample :
    inner_handle_client ⟨[("a", ⟨.New .actuator, 0, ⟨"x"⟩⟩)]⟩ "/measurement/a"
        ⟨some (.Measurement ⟨"u", none⟩)⟩ =
      .ok ⟨[("a", ⟨.Sensor ⟨"u", none⟩, 0, ⟨"x"⟩⟩)]⟩
    ∧ (EntityState.Sensor ⟨"u", none⟩).entity_type ≠
        (EntityState.New .actuator).entity_type := by
  exact ⟨rfl, by decide⟩

/-- **C6, as amended.** A registry row's kind never changes under any Discovery
request or Timeout sweep (given unique keys), and never changes under Subscriber
sample ingestion as long as the ingested sample's kind matches the row's kind; a
sample of the other kind, however, overwrites the row's kind (see the
counterexample). -/
theorem c6_kind_immutability :
    (∀ (s : AppState) (req : EntityDiscoveryCommand) (ip : String) (now : Nat)
        (n : String) (e e' : Entity),
      (s.entities.map Prod.fst).Nodup →
      s.entities.lookup n = some e →
      (handle_command s req ip now).2.1.entities.lookup n = some e' →
      e'.state.entity_type = e.state.entity_type)
    ∧ (∀ (now : Nat) (r : Registry) (n : String) (e e' : Entity),
      (r.map Prod.fst).Nodup →
      r.lookup n = some e →
      (unregister_dead_entities now r).1.lookup n = some e' →
      e'.state.entity_type = e.state.entity_type)
    ∧ (∀ (s s' : AppState) (topic : String) (payload : PublishData)
        (v : PublishValue) (n : String) (e e' : Entity),
      inner_handle_client s topic payload = .ok s' →
      payload.value = some v →
      s.entities.lookup n = some e →
      s'.entities.lookup n = some e' →
      v.entityState.entity_type = e.state.entity_type →
      e'.state.entity_type = e.state.entity_type) := by
  refine ⟨?_, ?_, ?_⟩
  · intro s req ip now n e e' hnd hl hl'
    obtain ⟨m, ty, cmdk⟩ := req
    match cmdk with
    | none =>
      rw [show (handle_command s ⟨m, ty, none⟩ ip now).2.1 = s from rfl] at hl'
      rw [hl] at hl'
      cases hl'
      rfl
    | some (.Register port) =>
      rcases hm : s.entities.lookup m with _ | e₂
      · simp only [handle_command, hm] at hl'
        rw [Registry.insertNew, Registry.lookup_append_of_some hl] at hl'
        cases hl'
        rfl
      · simp only [handle_command, hm] at hl'
        rw [hl] at hl'
        cases hl'
        rfl
    | some .Heartbeat =>
      rcases hm : s.entities.lookup m with _ | e₂
      · simp only [handle_command, hm] at hl'
        rw [hl] at hl'
        cases hl'
        rfl
      · simp only [handle_command, hm] at hl'
        by_cases hnm : n = m
        · subst hnm
          rw [hl] at hm
          cases hm
          rw [Registry.lookup_update_self hl] at hl'
          cases hl'
          rfl
        · rw [Registry.lookup_update_of_ne hnm] at hl'
          rw [hl] at hl'
          cases hl'
          rfl
    | some .Unregister =>
      rcases hm : s.entities.lookup m with _ | e₂
      · simp only [handle_command, AppState.unregister, hm] at hl'
        rw [hl] at hl'
        cases hl'
        rfl
      · simp only [handle_command, AppState.unregister, hm] at hl'
        by_cases hnm : n = m
        · subst hnm
          rw [Registry.lookup_remove_self hnd] at hl'
          cases hl'
        · rw [Registry.lookup_remove_of_ne hnm, hl] at hl'
          cases hl'
          rfl
  · intro now r n e e' hnd hl hl'
    rw [unregister_dead_fst] at hl'
    rw [Registry.lookup_filter hnd hl hl']
  · intro s s' topic payload v n e e' hcall hv hl hl' hmatch
    rw [inner_handle_client, hv] at hcall
    rcases v with m | a
    · rcases hsn : sensor_name topic with msg | name
      · rw [hsn] at hcall
        cases hcall
      · rw [hsn] at hcall
        rcases hm : s.entities.lookup name with _ | e₂
        · simp [update_state, hm] at hcall
        · simp only [update_state, hm, Except.ok.injEq] at hcall
          subst hcall
          dsimp only at hl'
          by_cases hnm : n = name
          · subst hnm
            rw [hl] at hm
            cases hm
            rw [Registry.lookup_update_self hl] at hl'
            cases hl'
            exact hmatch
          · rw [Registry.lookup_update_of_ne hnm, hl] at hl'
            cases hl'
            rfl
    · rcases hsn : actuator_name topic with msg | name
      · rw [hsn] at hcall
        cases hcall
      · rw [hsn] at hcall
        rcases hm : s.entities.lookup name with _ | e₂
        · simp [update_state, hm] at hcall
        · simp only [update_state, hm, Except.ok.injEq] at hcall
          subst hcall
          dsimp only at hl'
          by_cases hnm : n = name
          · subst hnm
            rw [hl] at hm
            cases hm
            rw [Registry.lookup_update_self hl] at hl'
            cases hl'
            exact hmatch
          · rw [Registry.lookup_update_of_ne hnm, hl] at hl'
            cases hl'
            rfl

/-- **C6, witness.** Kind preservation applied concretely: a heartbeat on row `a`, a
sweep that keeps row `a`, and the ingestion of a sensor sample for the
sensor-registered row `a` all leave the kind at Sensor. -/
theorem c6_witness :
    (Entity.mk (.New .sensor) 7 ⟨"x"⟩).state.entity_type =
      (Entity.mk (.New .sensor) 0 ⟨"x"⟩).state.entity_type
    ∧ (Entity.mk (.Sensor ⟨"u", none⟩) 0 ⟨"x"⟩).state.entity_type =
      (Entity.mk (.New .sensor) 0 ⟨"x"⟩).state.entity_type := by
  constructor
  · exact c6_kind_immutability.1 ⟨[("a", ⟨.New .sensor, 0, ⟨"x"⟩⟩)]⟩
      ⟨"a", .sensor, some .Heartbeat⟩ "10.0.0.2" 7 "a" _ _ (by decide) (by decide)
      (by decide)
  · exact c6_kind_immutability.2.2 ⟨[("a", ⟨.New .sensor, 0, ⟨"x"⟩⟩)]⟩
      ⟨[("a", ⟨.Sensor ⟨"u", none⟩, 0, ⟨"x"⟩⟩)]⟩ "/measurement/a"
      ⟨some (.Measurement ⟨"u", none⟩)⟩ (.Measurement ⟨"u", none⟩) "a" _ _
      (by decide) rfl (by decide) (by decide) (by decide)

/-- **C2, counterexample.** Register `a` as a Sensor, then send an Unregister for
`a` carrying `entity_type = Actuator`: the row is removed (the handler replies
`Ok`), but the unsubscribe is emitted for `/actuator_state/a`, so the subscription
for `/measurement/a` survives with no corresponding registry row — parity fails. -/
theorem c2_counterexample :
    (runEvents initialSys
      [.request ⟨"a", .sensor, some (.Register 5)⟩ "10.0.0.2" 0,
       .request ⟨"a", .actuator, some .Unregister⟩ "10.0.0.2" 1]).registry.entities = []
    ∧ (runEvents initialSys
      [.request ⟨"a", .sensor, some (.Register 5)⟩ "10.0.0.2" 0,
       .request ⟨"a", .actuator, some .Unregister⟩ "10.0.0.2" 1]).subs =
      ["/measurement/a"]
    ∧ ¬ subscriptionParity (runEvents initialSys
      [.request ⟨"a", .sensor, some (.Register 5)⟩ "10.0.0.2" 0,
       .request ⟨"a", .actuator, some .Unregister⟩ "10.0.0.2" 1]) := by
  have hsys : runEvents initialSys
      [.request ⟨"a", .sensor, some (.Register 5)⟩ "10.0.0.2" 0,
       .request ⟨"a", .actuator, some .Unregister⟩ "10.0.0.2" 1] =
      ⟨⟨[]⟩, ["/measurement/a"]⟩ := by decide
  refine ⟨by rw [hsys], by rw [hsys], ?_⟩
  intro h
  rw [hsys] at h
  obtain ⟨p, hp, -⟩ := (h "/measurement/a").mp (by simp)
  simp at hp

/-- **C2, as amended.** After any sequence of Register, Unregister, Heartbeat and
Timeout-sweep events, started from the empty controller state, the set of topics
subscribed and not yet unsubscribed equals `{topic(name, kind) : row(name)}` —
provided every Unregister request naming a currently registered entity carries
the entity type the row was registered with (`eventOk`); an Unregister whose
`entity_type` contradicts the row's kind breaks parity (see the counterexample). -/
theorem c2_subscription_parity (evs : List ControllerEvent)
    (hok : runEventsOk initialSys evs = true) :
    subscriptionParity (runEvents initialSys evs) := by
  have hinv := runEvents_inv evs initialSys ⟨rfl, List.nodup_nil⟩ hok
  intro t
  rw [hinv.1]
  exact List.mem_map

/-- **C2, witness.** A register / matching unregister / sweep sequence passes the
`eventOk` check and ends in parity. -/
theorem c2_witness :
    runEventsOk initialSys
      [.request ⟨"a", .sensor, some (.Register 5)⟩ "10.0.0.2" 0,
       .request ⟨"b", .actuator, some (.Register 6)⟩ "10.0.0.3" 1,
       .request ⟨"a", .sensor, some .Unregister⟩ "10.0.0.2" 2,
       .sweep 30000] = true
    ∧ subscriptionParity (runEvents initialSys
      [.request ⟨"a", .sensor, some (.Register 5)⟩ "10.0.0.2" 0,
       .request ⟨"b", .actuator, some (.Register 6)⟩ "10.0.0.3" 1,
       .request ⟨"a", .sensor, some .Unregister⟩ "10.0.0.2" 2,
       .sweep 30000]) :=
  ⟨by decide, c2_subscription_parity
    [.request ⟨"a", .sensor, some (.Register 5)⟩ "10.0.0.2" 0,
     .request ⟨"b", .actuator, some (.Register 6)⟩ "10.0.0.3" 1,
     .request ⟨"a", .sensor, some .Unregister⟩ "10.0.0.2" 2,
     .sweep 30000] (by decide)⟩

end HomeAutomation

